import Mathlib

/-!
Verification development for the DiscountMate repository.

Part 1 embeds the backend JavaScript helpers
(`src/Backend/src/controllers/product.controller.js`,
`src/Backend/src/config/loadSecrets.js`) as Lean functions.
Part 2 models the product-matching pipeline described in the
specification (the pipeline script itself is not present in the
source tree, so those definitions are modelled from the spec).
-/

namespace DiscountMate

/-- A JavaScript runtime value as far as the backend controller code
inspects one: a non-NaN number (`vNum`), the number `NaN` (`vNaN`),
a string, `null`, `undefined`, or any other object.  `typeof v ===
'number'` holds exactly for `vNum` and `vNaN`; `isNaN` separates the
two. -/
inductive JsVal where
  | vNum (q : ℚ)
  | vNaN
  | vStr (s : String)
  | vNull
  | vUndefined
  | vObj
deriving DecidableEq

/-- JavaScript nullish coalescing `a ?? b`: takes `b` exactly when `a`
is `null` or `undefined`. -/
def nullish (a b : JsVal) : JsVal :=
  match a with
  | JsVal.vNull => b
  | JsVal.vUndefined => b
  | x => x

/-- A document of the `products` collection as read by
`normaliseColesProduct`: the `_id` plus the optional fields the
function probes (absent fields are `vUndefined`). -/
structure ColesProduct where
  _id : String
  product_id : JsVal
  productId : JsVal
  product_code : JsVal
  product_name : JsVal
  name : JsVal
  item_name : JsVal
  description : JsVal
  link_image : JsVal
  image : JsVal
  link : JsVal
  category : JsVal
deriving DecidableEq

/-- A document of the `product_pricings` collection: only the
`current_price` field is read (absent is `vUndefined`). -/
structure Pricing where
  current_price : JsVal
deriving DecidableEq

/-- The record built by `normaliseColesProduct`. -/
structure NormalisedProduct where
  _id : String
  product_id : JsVal
  product_name : JsVal
  description : JsVal
  link_image : JsVal
  current_price : ℚ
  category : JsVal
  link : JsVal
deriving DecidableEq

/-- `normaliseColesProduct(product, latestPricing = null)` from
`product.controller.js` lines 48-93.  `product` and `latestPricing`
are documents or `null`/`undefined`, modelled as `Option`; the
function only tests their truthiness and documents are always truthy.
`current_price` is taken from the pricing exactly when that field is
a number and not NaN, else `0`. -/
def normaliseColesProduct (product : Option ColesProduct)
    (latestPricing : Option Pricing) : Option NormalisedProduct :=
  match product with
  | none => none
  | some p =>
    let currentPrice : ℚ :=
      match latestPricing with
      | some pr =>
        match pr.current_price with
        | JsVal.vNum q => q
        | _ => 0
      | none => 0
    some
      { _id := p._id
        product_id := nullish p.product_id (nullish p.productId
          (nullish p.product_code JsVal.vNull))
        product_name := nullish p.product_name (nullish p.name
          (nullish p.item_name (JsVal.vStr "Unnamed Product")))
        description := nullish p.description JsVal.vNull
        link_image := nullish p.link_image (nullish p.image
          (nullish p.link JsVal.vNull))
        current_price := currentPrice
        category := nullish p.category JsVal.vNull
        link := nullish p.link JsVal.vNull }

/-- The process environment as `loadSecrets.js` observes it: the two
variables it reads.  The code only ever tests truthiness of these
strings, so an unset variable and one set to the empty string are
indistinguishable; both are modelled as `""`. -/
structure Env where
  mongo_uri : String
  google_cloud_project : String
deriving DecidableEq

/-- The two errors `loadSecrets` can throw. -/
inductive SecretsError where
  | projectNotSet
  | emptyPayload
deriving DecidableEq

/-- `loadSecrets` from `loadSecrets.js` lines 3-23.  `fetchSecret`
models a successful Secret Manager `accessSecretVersion` response for
a given project id: `none` when the payload or its data is absent,
`some s` for payload text `s` (possibly empty). -/
def loadSecrets (fetchSecret : String → Option String) (env : Env) :
    Except SecretsError Env :=
  if env.mongo_uri ≠ "" then Except.ok env
  else if env.google_cloud_project = "" then
    Except.error SecretsError.projectNotSet
  else
    match fetchSecret env.google_cloud_project with
    | none => Except.error SecretsError.emptyPayload
    | some uri =>
      if uri = "" then Except.error SecretsError.emptyPayload
      else Except.ok { env with mongo_uri := uri }

/-- Numeric value of a run of decimal digits. -/
def digitsToNat (ds : List Char) : Nat :=
  ds.foldl (fun a c => 10 * a + (c.toNat - 48)) 0

/-- JavaScript `parseInt(v, 10)` applied to a query parameter that is
either absent (`none`, which stringifies to `"undefined"` and parses
to NaN) or a string: skip leading whitespace, read an optional sign
and then the leading digit run, ignoring any trailing characters;
`none` models NaN (no digits). -/
def parseIntJs : Option String → Option Int
  | none => none
  | some s =>
    let cs := s.data.dropWhile (fun c => c.isWhitespace)
    match cs with
    | '-' :: r =>
      let ds := r.takeWhile (fun c => c.isDigit)
      if ds.isEmpty then none else some (-(digitsToNat ds : Int))
    | '+' :: r =>
      let ds := r.takeWhile (fun c => c.isDigit)
      if ds.isEmpty then none else some (digitsToNat ds : Int)
    | r =>
      let ds := r.takeWhile (fun c => c.isDigit)
      if ds.isEmpty then none else some (digitsToNat ds : Int)

/-- JavaScript `a || d` for a number `a` that may be NaN (`none`):
falls through to `d` when `a` is NaN or `0`, the two falsy numbers. -/
def orNum (a : Option Int) (d : Int) : Int :=
  match a with
  | some n => if n = 0 then d else n
  | none => d

/-- Truthiness of a query-string parameter: present and non-empty. -/
def strTruthy : Option String → Bool
  | none => false
  | some s => s ≠ ""

/-- `Boolean(page || limit || pageSize)` from `getProducts`
(line 125). -/
def hasPagingParams (page limit pageSize : Option String) : Bool :=
  strTruthy page || strTruthy limit || strTruthy pageSize

/-- `Math.max(parseInt(page, 10) || 1, 1)` from `getProducts`
(lines 221, 265). -/
def pageNumberOf (page : Option String) : Int :=
  max (orNum (parseIntJs page) 1) 1

/-- `parseInt(limit, 10) || parseInt(pageSize, 10) || 30` from
`getProducts` (lines 222-223, 266-267). -/
def rawPageSizeOf (limit pageSize : Option String) : Int :=
  orNum (parseIntJs limit) (orNum (parseIntJs pageSize) 30)

/-- `Math.min(Math.max(rawPageSize, 1), 100)` from `getProducts`
(lines 224, 268). -/
def pageSizeNumberOf (limit pageSize : Option String) : Int :=
  min (max (rawPageSizeOf limit pageSize) 1) 100

/-- The `$skip` argument `(pageNumber - 1) * pageSizeNumber` pushed on
the aggregation pipeline (line 227). -/
def skipOf (page limit pageSize : Option String) : Int :=
  (pageNumberOf page - 1) * pageSizeNumberOf limit pageSize

/-- Effect of the `$skip`/`$limit` stages `getProducts` appends to the
aggregation pipeline (lines 220-230): applied to the sorted product
list exactly when a paging parameter was supplied. -/
def applyPaging {α : Type} (page limit pageSize : Option String)
    (l : List α) : List α :=
  if hasPagingParams page limit pageSize then
    (l.drop (skipOf page limit pageSize).toNat).take
      (pageSizeNumberOf limit pageSize).toNat
  else l

/-! Part 2: the matching pipeline.  The script `product_matching.py`
is described by the specification and its README but is not in the
source tree, so the definitions below are modelled from the spec. -/

/-- Splits a character list at whitespace, dropping empty chunks;
`acc` holds the reversed current chunk. -/
def splitWsAux : List Char → List Char → List (List Char)
  | [], acc => if acc.isEmpty then [] else [acc.reverse]
  | c :: cs, acc =>
    if c.isWhitespace then
      if acc.isEmpty then splitWsAux cs []
      else acc.reverse :: splitWsAux cs []
    else splitWsAux cs (c :: acc)

/-- ASCII case-folding of one character. -/
def lowerChar (c : Char) : Char :=
  if c.toNat < 65 ∨ 90 < c.toNat then c else Char.ofNat (c.toNat + 32)

/-- Modelled from the spec: the whitespace-tokenized, case-folded
token set of a canon text (`product_matching.py` is absent from the
tree). -/
def tokenSet (s : String) : Finset String :=
  ((splitWsAux s.data []).map
    (fun w => String.mk (w.map lowerChar))).toFinset

/-- Modelled from the spec: `JACC`, the Jaccard similarity of the two
canon texts' token sets, `0` when the union is empty. -/
def jacc (a b : String) : ℚ :=
  if (tokenSet a ∪ tokenSet b).card = 0 then 0
  else ((tokenSet a ∩ tokenSet b).card : ℚ) /
    ((tokenSet a ∪ tokenSet b).card : ℚ)

/-- A master catalogue row after canonicalization, as the pipeline
consumes it. -/
structure MasterProduct where
  id : Nat
  brand_clean : String
  canon_text : String
deriving DecidableEq

/-- A scraped row after canonicalization, as the pipeline consumes
it. -/
structure ScrapedProduct where
  id : Nat
  brand_clean : String
  canon_text : String
deriving DecidableEq

/-- The resolved configuration object of the pipeline. -/
structure Config where
  top_k : Int
  top_brands : Int
  true_threshold : ℚ
  true_margin : ℚ
  variant_threshold : ℚ
  variant_margin : ℚ
deriving DecidableEq

/-- Modelled from the spec: `true_score = 0.50*CHAR + 0.25*JACC +
0.25*COS`. -/
def trueScore (c j q : ℚ) : ℚ := 1/2 * c + 1/4 * j + 1/4 * q

/-- Modelled from the spec: `variant_score = 0.30*CHAR + 0.20*JACC +
0.50*COS`. -/
def variantScore (c j q : ℚ) : ℚ := 3/10 * c + 1/5 * j + 1/2 * q

/-- A candidate pair produced by retrieval: the master id and the
three metrics for one (scraped, master) pair. -/
structure CandidatePair where
  master_id : Nat
  cos : ℚ
  jacc : ℚ
  char : ℚ
deriving DecidableEq

/-- Insertion into a list sorted by the Boolean relation `le`. -/
def insertSorted {α : Type} (le : α → α → Bool) (x : α) :
    List α → List α
  | [] => [x]
  | y :: ys => if le x y then x :: y :: ys else y :: insertSorted le x ys

/-- Insertion sort by the Boolean relation `le`. -/
def sortBy {α : Type} (le : α → α → Bool) : List α → List α
  | [] => []
  | x :: xs => insertSorted le x (sortBy le xs)

/-- Retrieval order: cosine similarity descending, ties broken by
ascending master id. -/
def retrievalLE (a b : CandidatePair) : Bool :=
  if a.cos = b.cos then decide (a.master_id ≤ b.master_id)
  else decide (b.cos < a.cos)

/-- The metrics of one (scraped, master) pair.  `cosSim` and
`charSim` stand for the TF-IDF cosine similarity and the
RapidFuzz `token_set_ratio` scaled to [0,1]; the spec fixes neither
beyond its range, so both are parameters of the model. -/
def mkCandidate (cosSim charSim : String → String → ℚ)
    (s : ScrapedProduct) (m : MasterProduct) : CandidatePair :=
  { master_id := m.id
    cos := cosSim s.canon_text m.canon_text
    jacc := jacc s.canon_text m.canon_text
    char := charSim s.canon_text m.canon_text }

/-- Modelled from the spec: per-block candidate retrieval, the
`top_k` masters of the block by cosine similarity, highest first,
ties by ascending master id. -/
def retrieveCandidates (cosSim charSim : String → String → ℚ)
    (blockMasters : List MasterProduct) (s : ScrapedProduct)
    (k : Nat) : List CandidatePair :=
  (sortBy retrievalLE (blockMasters.map (mkCandidate cosSim charSim s))).take k

/-- The true-mode ensemble score of a candidate. -/
def trueScoreOf (c : CandidatePair) : ℚ := trueScore c.char c.jacc c.cos

/-- The variant-mode ensemble score of a candidate. -/
def variantScoreOf (c : CandidatePair) : ℚ :=
  variantScore c.char c.jacc c.cos

/-- Acceptance-ranking order for one mode: ensemble score descending,
ties broken by ascending master id. -/
def rankLE (score : CandidatePair → ℚ) (a b : CandidatePair) : Bool :=
  if score a = score b then decide (a.master_id ≤ b.master_id)
  else decide (score b < score a)

/-- Modelled from the spec: a row's candidates ranked by the mode's
ensemble score descending, ties by ascending master id. -/
def rankByScore (score : CandidatePair → ℚ) (cs : List CandidatePair) :
    List CandidatePair :=
  sortBy (rankLE score) cs

/-- `best`: the top-ranked score, `0` if there are no candidates. -/
def bestScore (score : CandidatePair → ℚ) (cs : List CandidatePair) : ℚ :=
  match rankByScore score cs with
  | [] => 0
  | c :: _ => score c

/-- `second`: the next-ranked score, `0` if fewer than two candidates
exist. -/
def secondScore (score : CandidatePair → ℚ) (cs : List CandidatePair) : ℚ :=
  match rankByScore score cs with
  | _ :: c :: _ => score c
  | _ => 0

/-- The master id of the top-ranked candidate (`0` if none). -/
def bestMasterId (score : CandidatePair → ℚ) (cs : List CandidatePair) : Nat :=
  match rankByScore score cs with
  | [] => 0
  | c :: _ => c.master_id

/-- Modelled from the spec: accept iff `best ≥ threshold` and
`best − second ≥ margin`. -/
def acceptMode (threshold margin : ℚ) (score : CandidatePair → ℚ)
    (cs : List CandidatePair) : Bool :=
  decide (threshold ≤ bestScore score cs ∧
    margin ≤ bestScore score cs - secondScore score cs)

/-- One row-level result of the pipeline. -/
structure MatchResult where
  scraped_id : Nat
  brand_clean : String
  best_master_id : Nat
  best_true_score : ℚ
  second_true_score : ℚ
  true_accepted : Bool
  best_variant_score : ℚ
  second_variant_score : ℚ
  variant_accepted : Bool
deriving DecidableEq

/-- Modelled from the spec: evaluation of one scraped row against its
brand block; a row whose block yields no candidates is excluded
(`none`), not an error. -/
def processRow (cosSim charSim : String → String → ℚ) (cfg : Config)
    (blockMasters : List MasterProduct) (s : ScrapedProduct) :
    Option MatchResult :=
  let cs := retrieveCandidates cosSim charSim blockMasters s cfg.top_k.toNat
  if cs.isEmpty then none
  else some
    { scraped_id := s.id
      brand_clean := s.brand_clean
      best_master_id := bestMasterId trueScoreOf cs
      best_true_score := bestScore trueScoreOf cs
      second_true_score := secondScore trueScoreOf cs
      true_accepted := acceptMode cfg.true_threshold cfg.true_margin trueScoreOf cs
      best_variant_score := bestScore variantScoreOf cs
      second_variant_score := secondScore variantScoreOf cs
      variant_accepted := acceptMode cfg.variant_threshold cfg.variant_margin variantScoreOf cs }

/-- The distinct `brand_clean` values of the scraped set. -/
def scrapedBrandList (scraped : List ScrapedProduct) : List String :=
  (scraped.map (fun s => s.brand_clean)).dedup

/-- Number of scraped rows carrying brand `b`. -/
def brandFreq (scraped : List ScrapedProduct) (b : String) : Nat :=
  (scraped.filter (fun s => s.brand_clean = b)).length

/-- Brand-selection order: scraped frequency descending, ties by
brand string ascending. -/
def brandLE (scraped : List ScrapedProduct) (a b : String) : Bool :=
  if brandFreq scraped a = brandFreq scraped b then !decide (b < a)
  else decide (brandFreq scraped b < brandFreq scraped a)

/-- Modelled from the spec: the `top_brands` most frequent scraped
brands, ties by brand string ascending. -/
def selectedBrands (scraped : List ScrapedProduct) (n : Nat) : List String :=
  (sortBy (brandLE scraped) (scrapedBrandList scraped)).take n

/-- The single fatal error class: an out-of-range configuration. -/
inductive ConfigError where
  | invalid
deriving DecidableEq

/-- Modelled from the spec: thresholds and margins must lie in [0,1],
`top_k` and `top_brands` must be positive. -/
def validConfig (cfg : Config) : Bool :=
  decide (0 ≤ cfg.true_threshold ∧ cfg.true_threshold ≤ 1 ∧
    0 ≤ cfg.true_margin ∧ cfg.true_margin ≤ 1 ∧
    0 ≤ cfg.variant_threshold ∧ cfg.variant_threshold ≤ 1 ∧
    0 ≤ cfg.variant_margin ∧ cfg.variant_margin ≤ 1 ∧
    0 < cfg.top_k ∧ 0 < cfg.top_brands)

/-- One per-brand summary row. -/
structure BrandSummary where
  brand : String
  scraped_count : Nat
  true_accept_rate : Option ℚ
  variant_accept_rate : Option ℚ
deriving DecidableEq

/-- Modelled from the spec: the Result Aggregator's per-brand summary;
an empty block yields an explicit undefined rate (`none`), never a
silent `0`. -/
def mkBrandSummary (b : String) (rows : List MatchResult) : BrandSummary :=
  { brand := b
    scraped_count := rows.length
    true_accept_rate :=
      if rows.length = 0 then none
      else some (((rows.filter (fun r => r.true_accepted)).length : ℚ) /
        (rows.length : ℚ))
    variant_accept_rate :=
      if rows.length = 0 then none
      else some (((rows.filter (fun r => r.variant_accepted)).length : ℚ) /
        (rows.length : ℚ)) }

/-- Modelled from the spec: the whole pipeline run.  Configuration is
validated before any block is processed; then the selected brand
blocks are evaluated row by row and aggregated. -/
def runPipeline (cosSim charSim : String → String → ℚ)
    (masters : List MasterProduct) (scraped : List ScrapedProduct)
    (cfg : Config) :
    Except ConfigError (List MatchResult × List BrandSummary) :=
  if validConfig cfg then
    let brands := selectedBrands scraped cfg.top_brands.toNat
    let results := (brands.map (fun b =>
      (scraped.filter (fun s => s.brand_clean = b)).filterMap
        (processRow cosSim charSim cfg
          (masters.filter (fun m => m.brand_clean = b))))).flatten
    let summaries := brands.map (fun b =>
      mkBrandSummary b (results.filter (fun r => r.brand_clean = b)))
    Except.ok (results, summaries)
  else Except.error ConfigError.invalid

/-- C8: `normaliseColesProduct` returns null exactly for a null or
undefined product; otherwise it preserves `_id` and takes
`current_price` from the pricing exactly when that field is a number
other than NaN, else `0`.  (Null and undefined are the two falsy
values a document argument can take; both are modelled as `none`.) -/
theorem normaliseColesProduct_spec (p : ColesProduct) (lp : Option Pricing) :
    normaliseColesProduct none lp = none ∧
    ∃ r, normaliseColesProduct (some p) lp = some r ∧
      r._id = p._id ∧
      (∀ pr q, lp = some pr → pr.current_price = JsVal.vNum q →
        r.current_price = q) ∧
      (lp = none → r.current_price = 0) ∧
      (∀ pr, lp = some pr → (∀ q, pr.current_price ≠ JsVal.vNum q) →
        r.current_price = 0) := by
  refine ⟨rfl, ?_⟩
  cases lp with
  | none =>
    refine ⟨_, rfl, rfl, ?_, fun _ => rfl, ?_⟩
    · intro pr q hpr
      exact absurd hpr (by simp)
    · intro pr hpr
      exact absurd hpr (by simp)
  | some pr =>
    refine ⟨_, rfl, rfl, ?_, ?_, ?_⟩
    · intro pr2 q hpr hq
      injection hpr with hpr
      subst hpr
      simp [normaliseColesProduct, hq]
    · intro hn
      exact absurd hn (by simp)
    · intro pr2 hpr hq
      injection hpr with hpr
      subst hpr
      cases hcp : pr.current_price with
      | vNum q => exact absurd hcp (hq q)
      | vNaN => simp [normaliseColesProduct, hcp]
      | vStr s => simp [normaliseColesProduct, hcp]
      | vNull => simp [normaliseColesProduct, hcp]
      | vUndefined => simp [normaliseColesProduct, hcp]
      | vObj => simp [normaliseColesProduct, hcp]

/-- Witness for C8 at a concrete product and pricing. -/
theorem normaliseColesProduct_spec_witness :
    ∃ r, normaliseColesProduct
        (some { _id := "p1", product_id := JsVal.vStr "P001",
                productId := JsVal.vUndefined,
                product_code := JsVal.vUndefined,
                product_name := JsVal.vStr "Fries",
                name := JsVal.vUndefined, item_name := JsVal.vUndefined,
                description := JsVal.vNull,
                link_image := JsVal.vUndefined, image := JsVal.vUndefined,
                link := JsVal.vNull, category := JsVal.vNull })
        (some { current_price := JsVal.vNum 5 }) = some r ∧
      r._id = "p1" ∧ r.current_price = 5 := by
  obtain ⟨-, r, hr, hid, hnum, -, -⟩ :=
    normaliseColesProduct_spec
      { _id := "p1", product_id := JsVal.vStr "P001",
        productId := JsVal.vUndefined, product_code := JsVal.vUndefined,
        product_name := JsVal.vStr "Fries", name := JsVal.vUndefined,
        item_name := JsVal.vUndefined, description := JsVal.vNull,
        link_image := JsVal.vUndefined, image := JsVal.vUndefined,
        link := JsVal.vNull, category := JsVal.vNull }
      (some { current_price := JsVal.vNum 5 })
  exact ⟨r, hr, hid, hnum _ _ rfl rfl⟩

/-- C10: `loadSecrets` is a no-op leaving the environment unchanged
(and independent of Secret Manager) when `MONGO_URI` is already set
non-empty; otherwise it throws exactly when the project id is not set
or the fetched payload is empty; every non-throwing completion leaves
a non-empty `MONGO_URI`. -/
theorem loadSecrets_spec (fetch fetch2 : String → Option String) (env : Env) :
    (env.mongo_uri ≠ "" →
      loadSecrets fetch env = Except.ok env ∧
      loadSecrets fetch env = loadSecrets fetch2 env) ∧
    (env.mongo_uri = "" →
      ((∃ e, loadSecrets fetch env = Except.error e) ↔
        (env.google_cloud_project = "" ∨
          fetch env.google_cloud_project = none ∨
          fetch env.google_cloud_project = some ""))) ∧
    (∀ env2, loadSecrets fetch env = Except.ok env2 →
      env2.mongo_uri ≠ "") := by
  refine ⟨?_, ?_, ?_⟩
  · intro h
    constructor <;> simp [loadSecrets, h]
  · intro h
    by_cases hg : env.google_cloud_project = ""
    · simp [loadSecrets, h, hg]
    · cases hf : fetch env.google_cloud_project with
      | none => simp [loadSecrets, h, hg, hf]
      | some u =>
        by_cases hu : u = ""
        · subst hu
          simp [loadSecrets, h, hg, hf]
        · simp [loadSecrets, h, hg, hf, hu]
  · intro env2 hok
    by_cases h : env.mongo_uri = ""
    · by_cases hg : env.google_cloud_project = ""
      · simp [loadSecrets, h, hg] at hok
      · cases hf : fetch env.google_cloud_project with
        | none => simp [loadSecrets, h, hg, hf] at hok
        | some u =>
          by_cases hu : u = ""
          · subst hu
            simp [loadSecrets, h, hg, hf] at hok
          · simp [loadSecrets, h, hg, hf, hu] at hok
            subst hok
            exact hu
    · simp [loadSecrets, h] at hok
      subst hok
      exact h

/-- Witness for C10: with `MONGO_URI` already set, the call is a
no-op for any Secret Manager behavior. -/
theorem loadSecrets_spec_witness :
    loadSecrets (fun _ => none)
      { mongo_uri := "mongodb+srv:cluster", google_cloud_project := "" } =
    Except.ok
      { mongo_uri := "mongodb+srv:cluster", google_cloud_project := "" } :=
  ((loadSecrets_spec (fun _ => none) (fun _ => some "x")
    { mongo_uri := "mongodb+srv:cluster", google_cloud_project := "" }).1
    (by decide)).1

/-- C9 counterexample: a `limit` of `"0"` is a value below 1, yet the
effective page size is the default 30, not 1 — JavaScript `||`
treats the parsed 0 as falsy and falls through, so "values below 1
are clamped to 1" fails at 0. -/
theorem pageSize_clamp_counterexample :
    hasPagingParams none (some "0") none = true ∧
    parseIntJs (some "0") = some 0 ∧ (0 : Int) < 1 ∧
    pageSizeNumberOf (some "0") none = 30 ∧
    ¬ pageSizeNumberOf (some "0") none = 1 := by decide

/-- C9 as amended: with any paging parameter supplied, the effective
page number is ≥ 1, the effective page size lies in [1,100], and
exactly `(page − 1) × pageSize` products are skipped; missing or
non-numeric values default to page 1 and size 30, resolved sizes
above 100 clamp to 100 and resolved sizes below 1 clamp to 1 — where
a parameter parsing to exactly 0 does not reach the clamp but is
treated as absent and falls through to the next parameter or the
default 30. -/
theorem getProducts_paging_spec {α : Type} (page limit pageSize : Option String)
    (l : List α) (h : hasPagingParams page limit pageSize = true) :
    1 ≤ pageNumberOf page ∧
    1 ≤ pageSizeNumberOf limit pageSize ∧
    pageSizeNumberOf limit pageSize ≤ 100 ∧
    applyPaging page limit pageSize l =
      (l.drop ((pageNumberOf page - 1) *
        pageSizeNumberOf limit pageSize).toNat).take
        (pageSizeNumberOf limit pageSize).toNat ∧
    (parseIntJs page = none → pageNumberOf page = 1) ∧
    (parseIntJs limit = none → parseIntJs pageSize = none →
      pageSizeNumberOf limit pageSize = 30) ∧
    (100 < rawPageSizeOf limit pageSize →
      pageSizeNumberOf limit pageSize = 100) ∧
    (rawPageSizeOf limit pageSize < 1 →
      pageSizeNumberOf limit pageSize = 1) ∧
    (parseIntJs limit = some 0 →
      pageSizeNumberOf limit pageSize = pageSizeNumberOf none pageSize) := by
  refine ⟨le_max_right _ _, le_min (le_max_right _ _) (by norm_num), min_le_right _ _, ?_, ?_, ?_, ?_, ?_, ?_⟩
  · simp [applyPaging, h, skipOf]
  · intro hp
    simp [pageNumberOf, orNum, hp]
  · intro h1 h2
    simp [pageSizeNumberOf, rawPageSizeOf, orNum, h1, h2]
  · intro hgt
    have h1 : max (rawPageSizeOf limit pageSize) 1 = rawPageSizeOf limit pageSize :=
      max_eq_left (by omega)
    simp only [pageSizeNumberOf, h1]
    exact min_eq_right (by omega)
  · intro hlt
    have h1 : max (rawPageSizeOf limit pageSize) 1 = 1 :=
      max_eq_right (by omega)
    simp only [pageSizeNumberOf, h1]
    exact min_eq_left (by norm_num)
  · intro h0
    have hn : parseIntJs none = none := rfl
    simp [pageSizeNumberOf, rawPageSizeOf, orNum, h0, hn]

/-- Witness for C9 at a concrete request: page 3, limit 2 over eight
products. -/
theorem getProducts_paging_spec_witness :
    1 ≤ pageNumberOf (some "3") ∧
    applyPaging (some "3") (some "2") none [10, 11, 12, 13, 14, 15, 16, 17] =
      (([10, 11, 12, 13, 14, 15, 16, 17] : List Nat).drop
        ((pageNumberOf (some "3") - 1) *
          pageSizeNumberOf (some "2") none).toNat).take
        (pageSizeNumberOf (some "2") none).toNat := by
  obtain ⟨h1, -, -, h4, -⟩ :=
    getProducts_paging_spec (some "3") (some "2") none
      ([10, 11, 12, 13, 14, 15, 16, 17] : List Nat) (by decide)
  exact ⟨h1, h4⟩

/-- C4: `JACC` is the Jaccard similarity of the whitespace-tokenized,
case-folded token sets (`0` on an empty union); it is symmetric and
equals `1` on any text with a non-empty token set. -/
theorem jacc_spec (a b : String) :
    jacc a b = (if (tokenSet a ∪ tokenSet b).card = 0 then 0
      else ((tokenSet a ∩ tokenSet b).card : ℚ) /
        ((tokenSet a ∪ tokenSet b).card : ℚ)) ∧
    jacc a b = jacc b a ∧
    ((tokenSet a).Nonempty → jacc a a = 1) := by
  refine ⟨rfl, ?_, ?_⟩
  · unfold jacc
    rw [Finset.union_comm, Finset.inter_comm]
  · intro h
    have hc : (tokenSet a).card ≠ 0 := (Finset.card_pos.mpr h).ne'
    unfold jacc
    rw [Finset.union_self, Finset.inter_self, if_neg hc]
    exact div_self (Nat.cast_ne_zero.mpr hc)

/-- Witness for C4 on concrete texts: symmetry across reordering and
case, and self-similarity 1. -/
theorem jacc_spec_witness :
    jacc "Acme Fries 750 g" "g 750 FRIES acme" =
      jacc "g 750 FRIES acme" "Acme Fries 750 g" ∧
    jacc "Acme Fries" "Acme Fries" = 1 :=
  ⟨(jacc_spec "Acme Fries 750 g" "g 750 FRIES acme").2.1,
   (jacc_spec "Acme Fries" "Acme Fries").2.2 (by decide)⟩

/-- C1: for a scraped row whose block yields candidates, the row's
result exists (no error is raised) and, per mode, it is accepted if
and only if the mode's best ranked ensemble score reaches the
threshold and leads the second ranked score by the margin. -/
theorem acceptance_rule_spec (cosSim charSim : String → String → ℚ)
    (cfg : Config) (blockMasters : List MasterProduct) (s : ScrapedProduct)
    (h : retrieveCandidates cosSim charSim blockMasters s cfg.top_k.toNat ≠ []) :
    ∃ r, processRow cosSim charSim cfg blockMasters s = some r ∧
      (r.true_accepted = true ↔
        (cfg.true_threshold ≤ bestScore trueScoreOf
            (retrieveCandidates cosSim charSim blockMasters s cfg.top_k.toNat) ∧
          cfg.true_margin ≤ bestScore trueScoreOf
            (retrieveCandidates cosSim charSim blockMasters s cfg.top_k.toNat) -
            secondScore trueScoreOf
              (retrieveCandidates cosSim charSim blockMasters s cfg.top_k.toNat))) ∧
      (r.variant_accepted = true ↔
        (cfg.variant_threshold ≤ bestScore variantScoreOf
            (retrieveCandidates cosSim charSim blockMasters s cfg.top_k.toNat) ∧
          cfg.variant_margin ≤ bestScore variantScoreOf
            (retrieveCandidates cosSim charSim blockMasters s cfg.top_k.toNat) -
            secondScore variantScoreOf
              (retrieveCandidates cosSim charSim blockMasters s cfg.top_k.toNat))) := by
  have he : (retrieveCandidates cosSim charSim blockMasters s cfg.top_k.toNat).isEmpty = false := by
    simpa [List.isEmpty_iff] using h
  simp only [processRow, he, Bool.false_eq_true, if_false]
  exact ⟨_, rfl, by simp [acceptMode], by simp [acceptMode]⟩

/-- C6: an out-of-range configuration makes the run fail fast with a
configuration error, producing no `MatchResult` rows and no
`BrandSummary` entries. -/
theorem config_error_fail_fast (cosSim charSim : String → String → ℚ)
    (masters : List MasterProduct) (scraped : List ScrapedProduct)
    (cfg : Config)
    (h : cfg.true_threshold < 0 ∨ 1 < cfg.true_threshold ∨
      cfg.true_margin < 0 ∨ 1 < cfg.true_margin ∨
      cfg.variant_threshold < 0 ∨ 1 < cfg.variant_threshold ∨
      cfg.variant_margin < 0 ∨ 1 < cfg.variant_margin ∨
      cfg.top_k ≤ 0 ∨ cfg.top_brands ≤ 0) :
    runPipeline cosSim charSim masters scraped cfg =
      Except.error ConfigError.invalid := by
  have hv : validConfig cfg = false := by
    simp only [validConfig, decide_eq_false_iff_not]
    rintro ⟨h1, h2, h3, h4, h5, h6, h7, h8, h9, h10⟩
    rcases h with h|h|h|h|h|h|h|h|h|h <;> linarith
  simp [runPipeline, hv]

/-- Cosine-style similarity fixture: identical canon texts score 1,
all others 0. -/
def eqSim : String → String → ℚ := fun a b => if a = b then 1 else 0

/-- Constant similarity fixture at 1/2. -/
def halfSim : String → String → ℚ := fun _ _ => 1/2

/-- Master fixture. -/
def masterW : MasterProduct :=
  { id := 1, brand_clean := "acme", canon_text := "Acme Fries 750 g" }

/-- A second master fixture with the same canon text (a duplicate
master row) and a larger id. -/
def masterW2 : MasterProduct :=
  { id := 2, brand_clean := "acme", canon_text := "Acme Fries 750 g" }

/-- Scraped fixture whose canon text equals the master's. -/
def scrapedW : ScrapedProduct :=
  { id := 1, brand_clean := "acme", canon_text := "Acme Fries 750 g" }

/-- The default configuration of the spec. -/
def cfgW : Config :=
  { top_k := 10, top_brands := 10, true_threshold := 9/10,
    true_margin := 1/20, variant_threshold := 22/25,
    variant_margin := 3/100 }

/-- Witness for C1 at a concrete one-master block. -/
theorem acceptance_rule_spec_witness :
    ∃ r, processRow eqSim eqSim cfgW [masterW] scrapedW = some r ∧
      (r.true_accepted = true ↔
        (cfgW.true_threshold ≤ bestScore trueScoreOf
            (retrieveCandidates eqSim eqSim [masterW] scrapedW cfgW.top_k.toNat) ∧
          cfgW.true_margin ≤ bestScore trueScoreOf
            (retrieveCandidates eqSim eqSim [masterW] scrapedW cfgW.top_k.toNat) -
            secondScore trueScoreOf
              (retrieveCandidates eqSim eqSim [masterW] scrapedW cfgW.top_k.toNat))) ∧
      (r.variant_accepted = true ↔
        (cfgW.variant_threshold ≤ bestScore variantScoreOf
            (retrieveCandidates eqSim eqSim [masterW] scrapedW cfgW.top_k.toNat) ∧
          cfgW.variant_margin ≤ bestScore variantScoreOf
            (retrieveCandidates eqSim eqSim [masterW] scrapedW cfgW.top_k.toNat) -
            secondScore variantScoreOf
              (retrieveCandidates eqSim eqSim [masterW] scrapedW cfgW.top_k.toNat))) :=
  acceptance_rule_spec eqSim eqSim cfgW [masterW] scrapedW
    (by with_unfolding_all decide)

/-- Witness for C6: a configuration with `true_threshold = 2` fails
fast. -/
theorem config_error_fail_fast_witness :
    runPipeline eqSim eqSim [masterW] [scrapedW]
      { cfgW with true_threshold := 2 } =
      Except.error ConfigError.invalid :=
  config_error_fail_fast eqSim eqSim [masterW] [scrapedW]
    { cfgW with true_threshold := 2 }
    (Or.inr (Or.inl (by show (1 : ℚ) < 2; norm_num)))

/-- C5 as amended: with exactly one retrieved candidate the second
score defaults to 0, so acceptance in each mode reduces to
`best ≥ threshold AND best ≥ margin`; whenever the mode's margin does
not exceed its threshold (as in the default configuration) this is
exactly `best ≥ threshold`, but not for every margin in [0,1]. -/
theorem single_candidate_spec (cosSim charSim : String → String → ℚ)
    (cfg : Config) (blockMasters : List MasterProduct) (s : ScrapedProduct)
    (h : (retrieveCandidates cosSim charSim blockMasters s cfg.top_k.toNat).length = 1) :
    ∃ r, processRow cosSim charSim cfg blockMasters s = some r ∧
      r.second_true_score = 0 ∧ r.second_variant_score = 0 ∧
      (r.true_accepted = true ↔
        (cfg.true_threshold ≤ r.best_true_score ∧
          cfg.true_margin ≤ r.best_true_score)) ∧
      (r.variant_accepted = true ↔
        (cfg.variant_threshold ≤ r.best_variant_score ∧
          cfg.variant_margin ≤ r.best_variant_score)) ∧
      (cfg.true_margin ≤ cfg.true_threshold →
        (r.true_accepted = true ↔ cfg.true_threshold ≤ r.best_true_score)) ∧
      (cfg.variant_margin ≤ cfg.variant_threshold →
        (r.variant_accepted = true ↔
          cfg.variant_threshold ≤ r.best_variant_score)) := by
  obtain ⟨c, hc⟩ := List.length_eq_one.mp h
  have he : (retrieveCandidates cosSim charSim blockMasters s cfg.top_k.toNat).isEmpty = false := by
    rw [hc]
    rfl
  simp only [processRow, he, Bool.false_eq_true, if_false, hc]
  refine ⟨_, rfl, rfl, rfl, ?_, ?_, ?_, ?_⟩
  · simp [acceptMode, bestScore, secondScore, rankByScore, sortBy,
      insertSorted, sub_zero]
  · simp [acceptMode, bestScore, secondScore, rankByScore, sortBy,
      insertSorted, sub_zero]
  · intro hm
    simp only [acceptMode, bestScore, secondScore, rankByScore, sortBy,
      insertSorted, sub_zero, decide_eq_true_eq]
    exact ⟨fun hb => hb.1, fun hb => ⟨hb, le_trans hm hb⟩⟩
  · intro hm
    simp only [acceptMode, bestScore, secondScore, rankByScore, sortBy,
      insertSorted, sub_zero, decide_eq_true_eq]
    exact ⟨fun hb => hb.1, fun hb => ⟨hb, le_trans hm hb⟩⟩

/-- Configuration whose true-mode margin (0.7) exceeds its true-mode
threshold (0.6); every option is inside the valid ranges. -/
def cfgC5 : Config :=
  { top_k := 10, top_brands := 10, true_threshold := 3/5,
    true_margin := 7/10, variant_threshold := 22/25,
    variant_margin := 3/100 }

/-- C5 counterexample: a block with exactly one candidate whose best
true score 5/8 reaches the threshold 3/5, with margin 7/10 inside
[0,1], is nevertheless rejected — the single candidate is not
accepted "regardless of the configured margin". -/
theorem single_candidate_counterexample :
    validConfig cfgC5 = true ∧
    (0 : ℚ) ≤ 7/10 ∧ (7/10 : ℚ) ≤ 1 ∧
    (runPipeline halfSim halfSim [masterW] [scrapedW] cfgC5).map
      (fun p => p.1.map (fun r =>
        (r.second_true_score, r.best_true_score, r.true_accepted))) =
      Except.ok [(0, 5/8, false)] ∧
    (3/5 : ℚ) ≤ 5/8 :=
  ⟨by with_unfolding_all rfl, by norm_num, by norm_num,
   by with_unfolding_all rfl, by norm_num⟩

/-- Witness for C5 (amended) at a one-master block under the default
configuration. -/
theorem single_candidate_spec_witness :
    ∃ r, processRow eqSim eqSim cfgW [masterW] scrapedW = some r ∧
      r.second_true_score = 0 ∧ r.second_variant_score = 0 ∧
      (r.true_accepted = true ↔
        (cfgW.true_threshold ≤ r.best_true_score ∧
          cfgW.true_margin ≤ r.best_true_score)) ∧
      (r.variant_accepted = true ↔
        (cfgW.variant_threshold ≤ r.best_variant_score ∧
          cfgW.variant_margin ≤ r.best_variant_score)) ∧
      (cfgW.true_margin ≤ cfgW.true_threshold →
        (r.true_accepted = true ↔ cfgW.true_threshold ≤ r.best_true_score)) ∧
      (cfgW.variant_margin ≤ cfgW.variant_threshold →
        (r.variant_accepted = true ↔
          cfgW.variant_threshold ≤ r.best_variant_score)) :=
  single_candidate_spec eqSim eqSim cfgW [masterW] scrapedW
    (by with_unfolding_all decide)

/-- C2 as amended: raising `top_k` only ever adds candidates — the
candidate list at the smaller `top_k` is a sublist-subset of the one
at the larger `top_k` (the acceptance half of the original claim
fails, see the counterexample). -/
theorem topK_candidate_superset (cosSim charSim : String → String → ℚ)
    (blockMasters : List MasterProduct) (s : ScrapedProduct)
    (cfg : Config) (k2 : Int) (h : cfg.top_k ≤ k2) :
    retrieveCandidates cosSim charSim blockMasters s cfg.top_k.toNat ⊆
      retrieveCandidates cosSim charSim blockMasters s k2.toNat := by
  have hk : cfg.top_k.toNat ≤ k2.toNat := Int.toNat_le_toNat h
  unfold retrieveCandidates
  intro c hc
  rw [show cfg.top_k.toNat = min cfg.top_k.toNat k2.toNat from
    (min_eq_left hk).symm, ← List.take_take] at hc
  exact List.take_subset _ _ hc

/-- The candidate the fixtures produce for the duplicate-master
block: the lower-id master with all three metrics equal to 1. -/
def candW : CandidatePair := { master_id := 1, cos := 1, jacc := 1, char := 1 }

/-- Witness for C2 (amended): the single candidate retrieved at
`top_k = 1` is still retrieved at `top_k = 2`. -/
theorem topK_candidate_superset_witness :
    candW ∈ retrieveCandidates eqSim eqSim [masterW, masterW2] scrapedW
      (2 : Int).toNat :=
  topK_candidate_superset eqSim eqSim [masterW, masterW2] scrapedW
    { cfgW with top_k := 1 } 2 (by decide)
    (by with_unfolding_all decide)

/-- C2 counterexample: with two identical master rows, the scraped
row is accepted in true mode at `top_k = 1` (second defaults to 0)
but rejected at `top_k = 2` (the newly retrieved duplicate ties the
best score, so the margin fails) — raising `top_k` un-accepted an
accepted row. -/
theorem topK_acceptance_counterexample :
    (runPipeline eqSim eqSim [masterW, masterW2] [scrapedW]
      { cfgW with top_k := 1 }).map
      (fun p => p.1.map (fun r => r.true_accepted)) = Except.ok [true] ∧
    (runPipeline eqSim eqSim [masterW, masterW2] [scrapedW]
      { cfgW with top_k := 2 }).map
      (fun p => p.1.map (fun r => r.true_accepted)) = Except.ok [false] :=
  ⟨by with_unfolding_all rfl, by with_unfolding_all rfl⟩

/-- C7: every produced brand summary has an explicit undefined rate
(`none`) for an empty block — never the number 0 — and otherwise
rates equal the per-mode accepted counts divided by the processed-row
count. -/
theorem brand_summary_rates_spec (cosSim charSim : String → String → ℚ)
    (masters : List MasterProduct) (scraped : List ScrapedProduct)
    (cfg : Config) (res : List MatchResult) (sums : List BrandSummary)
    (h : runPipeline cosSim charSim masters scraped cfg = Except.ok (res, sums)) :
    ∀ b ∈ sums,
      (b.scraped_count = 0 →
        b.true_accept_rate = none ∧ b.variant_accept_rate = none) ∧
      (b.scraped_count ≠ 0 →
        b.true_accept_rate = some
          ((((res.filter (fun r => r.brand_clean = b.brand)).filter
            (fun r => r.true_accepted)).length : ℚ) /
            (b.scraped_count : ℚ)) ∧
        b.variant_accept_rate = some
          ((((res.filter (fun r => r.brand_clean = b.brand)).filter
            (fun r => r.variant_accepted)).length : ℚ) /
            (b.scraped_count : ℚ))) := by
  unfold runPipeline at h
  split at h
  · simp only [Except.ok.injEq, Prod.mk.injEq] at h
    obtain ⟨hres, hsums⟩ := h
    subst hres
    subst hsums
    intro b hb
    rcases List.mem_map.mp hb with ⟨br, hbr, rfl⟩
    constructor
    · intro h0
      simp only [mkBrandSummary] at h0 ⊢
      exact ⟨if_pos h0, if_pos h0⟩
    · intro h0
      simp only [mkBrandSummary] at h0 ⊢
      exact ⟨if_neg h0, if_neg h0⟩
  · cases h

/-- The row-level result the fixtures produce: a perfect match,
accepted in both modes. -/
def resW : List MatchResult :=
  [{ scraped_id := 1, brand_clean := "acme", best_master_id := 1,
     best_true_score := 1, second_true_score := 0, true_accepted := true,
     best_variant_score := 1, second_variant_score := 0,
     variant_accepted := true }]

/-- The brand summary the fixtures produce. -/
def sumW : BrandSummary :=
  { brand := "acme", scraped_count := 1, true_accept_rate := some 1,
    variant_accept_rate := some 1 }

/-- Witness for C7 at a concrete run with one processed row. -/
theorem brand_summary_rates_spec_witness :
    sumW.true_accept_rate = some
      ((((resW.filter (fun r => r.brand_clean = sumW.brand)).filter
        (fun r => r.true_accepted)).length : ℚ) /
        (sumW.scraped_count : ℚ)) ∧
    sumW.variant_accept_rate = some
      ((((resW.filter (fun r => r.brand_clean = sumW.brand)).filter
        (fun r => r.variant_accepted)).length : ℚ) /
        (sumW.scraped_count : ℚ)) :=
  (brand_summary_rates_spec eqSim eqSim [masterW] [scrapedW] cfgW resW [sumW]
    (by with_unfolding_all rfl) sumW (by simp)).2 (by decide)

/-- Recomputation of the true-mode acceptance flag of a result row at
threshold `t2`, leaving every other field unchanged. -/
def adjustTrue (t2 : ℚ) (cfg : Config) (r : MatchResult) : MatchResult :=
  { r with true_accepted := decide (t2 ≤ r.best_true_score ∧
      cfg.true_margin ≤ r.best_true_score - r.second_true_score) }

/-- Changing only the true-mode threshold re-decides only the
true-mode acceptance flag of a row's result. -/
theorem processRow_true_threshold (cosSim charSim : String → String → ℚ)
    (cfg : Config) (t2 : ℚ) (bm : List MasterProduct) :
    processRow cosSim charSim { cfg with true_threshold := t2 } bm =
      fun s => (processRow cosSim charSim cfg bm s).map (adjustTrue t2 cfg) := by
  funext s
  simp only [processRow]
  split
  · rfl
  · simp [adjustTrue, acceptMode]

/-- Auxiliary: flattening commutes with mapping a function over every
inner list. -/
theorem flatten_map_map {α β γ : Type} (g : β → γ) (p : α → List β)
    (xs : List α) :
    (xs.map (fun b => (p b).map g)).flatten = ((xs.map p).flatten).map g := by
  induction xs with
  | nil => rfl
  | cons x xs ih => simp [ih]

/-- Auxiliary: `filterMap` after post-composing the partial function
with `Option.map g` equals mapping `g` over the `filterMap`. -/
theorem filterMap_map_option {α β γ : Type} (f : α → Option β) (g : β → γ)
    (l : List α) :
    l.filterMap (fun x => (f x).map g) = (l.filterMap f).map g := by
  induction l with
  | nil => rfl
  | cons x xs ih => cases hfx : f x <;> simp [List.filterMap_cons, hfx, ih]

/-- Every row a successful run produces carries a true-mode flag that
equals the threshold-and-margin decision over its recorded best and
second scores. -/
theorem mem_runPipeline_true_accepted (cosSim charSim : String → String → ℚ)
    (masters : List MasterProduct) (scraped : List ScrapedProduct)
    (cfg : Config) (res : List MatchResult) (sums : List BrandSummary)
    (h : runPipeline cosSim charSim masters scraped cfg = Except.ok (res, sums))
    (r : MatchResult) (hr : r ∈ res) :
    r.true_accepted = decide (cfg.true_threshold ≤ r.best_true_score ∧
      cfg.true_margin ≤ r.best_true_score - r.second_true_score) := by
  unfold runPipeline at h
  split at h
  · simp only [Except.ok.injEq, Prod.mk.injEq] at h
    obtain ⟨hres, hsums⟩ := h
    subst hres
    subst hsums
    rcases List.mem_flatten.mp hr with ⟨l, hl, hrl⟩
    rcases List.mem_map.mp hl with ⟨b, hb, rfl⟩
    rcases List.mem_filterMap.mp hrl with ⟨s0, hs0, hps⟩
    simp only [processRow] at hps
    split at hps
    · cases hps
    · injection hps with hps
      subst hps
      simp [acceptMode]
  · cases h

/-- C3: raising `true_threshold` (inside [0,1]) with every other
option fixed yields the same set of result rows with only the
true-mode flag re-decided, and can only move rows from accepted to
rejected, never the reverse. -/
theorem true_threshold_monotone (cosSim charSim : String → String → ℚ)
    (masters : List MasterProduct) (scraped : List ScrapedProduct)
    (cfg : Config) (t2 : ℚ) (res : List MatchResult)
    (sums : List BrandSummary)
    (h1 : cfg.true_threshold ≤ t2) (h2 : t2 ≤ 1)
    (h : runPipeline cosSim charSim masters scraped cfg = Except.ok (res, sums)) :
    ∃ sums2, runPipeline cosSim charSim masters scraped
        { cfg with true_threshold := t2 } =
        Except.ok (res.map (adjustTrue t2 cfg), sums2) ∧
      ∀ r ∈ res, (adjustTrue t2 cfg r).true_accepted = true →
        r.true_accepted = true := by
  have horig := h
  have hv : validConfig cfg = true := by
    by_contra hvc
    rw [Bool.not_eq_true] at hvc
    unfold runPipeline at h
    rw [hvc] at h
    simp at h
  have hv2 : validConfig { cfg with true_threshold := t2 } = true := by
    simp only [validConfig, decide_eq_true_eq] at hv ⊢
    obtain ⟨a1, a2, a3, a4, a5, a6, a7, a8, a9, a10⟩ := hv
    exact ⟨le_trans a1 h1, h2, a3, a4, a5, a6, a7, a8, a9, a10⟩
  unfold runPipeline at h
  rw [if_pos hv] at h
  simp only [Except.ok.injEq, Prod.mk.injEq] at h
  obtain ⟨hres, hsums⟩ := h
  subst hres
  subst hsums
  unfold runPipeline
  rw [if_pos hv2]
  simp only [processRow_true_threshold, filterMap_map_option,
    flatten_map_map]
  refine ⟨_, rfl, ?_⟩
  intro r hr hacc
  have hinv := mem_runPipeline_true_accepted cosSim charSim masters
    scraped cfg _ _ horig r hr
  simp only [adjustTrue, decide_eq_true_eq] at hacc
  rw [hinv]
  simp only [decide_eq_true_eq]
  exact ⟨le_trans h1 hacc.1, hacc.2⟩

/-- Witness for C3 at a concrete run, raising the threshold from 0.9
to 0.95. -/
theorem true_threshold_monotone_witness :
    ∃ sums2, runPipeline eqSim eqSim [masterW] [scrapedW]
        { cfgW with true_threshold := 19/20 } =
        Except.ok (resW.map (adjustTrue (19/20) cfgW), sums2) ∧
      ∀ r ∈ resW, (adjustTrue (19/20) cfgW r).true_accepted = true →
        r.true_accepted = true :=
  true_threshold_monotone eqSim eqSim [masterW] [scrapedW] cfgW (19/20)
    resW [sumW] (by with_unfolding_all decide) (by with_unfolding_all decide)
    (by with_unfolding_all rfl)

end DiscountMate
